import Mathlib

/-!
Shallow embedding of `src/main.py` (Anitabi-to-Tuxun pipeline).

The program fetches catalog points for anime works, resolves each point to
the nearest street-view panorama, pairs points with their resolutions,
deduplicates the resulting records by panorama identifier via Python set
semantics, and serializes the records to a CSV file and a newline-joined
URL list.

Coordinates (Python floats that are only ever passed through, never
computed with) are modelled as rationals.  JSON field access is modelled
with `Option` (a missing key raising `KeyError`/`IndexError` corresponds to
the `none` branch, which the source catches with a generic `except`), and
the outcome of a network request with `Except Unit`.
-/

set_option autoImplicit false

namespace AnitabiTuxun

/-- Dataclass `Point`: an immutable latitude/longitude pair. -/
structure Point where
  lat : Rat
  lng : Rat
deriving DecidableEq, Repr

/-- Dataclass `AnitabiPoint`: one catalog point of interest.
`name` comes from `point.get("name")` and may be null. -/
structure AnitabiPoint where
  name : Option String
  geo : Point
deriving DecidableEq, Repr

/-- Dataclass `GooglePanoPoint`: a resolved street-view panorama. -/
structure GooglePanoPoint where
  geo : Point
  pano_id : String
deriving DecidableEq, Repr

/-- Property `GooglePanoPoint.url`: the derived viewer URL, a pure function of the
coordinates and the panorama identifier (the f-string at line 30). -/
def GooglePanoPoint.url (g : GooglePanoPoint) : String :=
  "https://www.google.com/maps/@" ++ toString g.geo.lat ++ "," ++ toString g.geo.lng
    ++ ",3a/data=!3m8!1e1!3m6!1s" ++ g.pano_id ++ "!2e10!3e12!6s"

/-- Python `GooglePanoPoint.__eq__`: equality solely by `pano_id`. -/
def GooglePanoPoint.pyEq (a b : GooglePanoPoint) : Bool :=
  a.pano_id == b.pano_id

/-- Python `GooglePanoPoint.__hash__`: `hash(self.pano_id)`. -/
def GooglePanoPoint.pyHash (g : GooglePanoPoint) : UInt64 :=
  hash g.pano_id

/-- Dataclass `Record`: a catalog point paired with its resolved panorama. -/
structure Record where
  anitabi_point : AnitabiPoint
  google_pano_point : GooglePanoPoint
deriving DecidableEq, Repr

/-- Python `Record.__eq__`: delegates entirely to the contained
`google_pano_point`, hence solely to its `pano_id`. -/
def Record.pyEq (a b : Record) : Bool :=
  a.google_pano_point.pyEq b.google_pano_point

/-- Python `Record.__hash__`: `hash(self.google_pano_point)`. -/
def Record.pyHash (r : Record) : UInt64 :=
  r.google_pano_point.pyHash

/-! ### Catalog Client (`fetch_and_parse_points`) -/

/-- One raw element of the catalog response's `points` array.  `geo` is
`none` when the `"geo"` key is missing (Python raises `KeyError`); a list
shorter than 2 models `geo[0]`/`geo[1]` raising `IndexError`. -/
structure RawPoint where
  name : Option String
  geo : Option (List Rat)
deriving DecidableEq, Repr

/-- The parsed JSON body of a catalog response; `points` is `none` when the
`"points"` key is missing (`data.get("points", [])` then yields `[]`). -/
structure CatalogResp where
  points : Option (List RawPoint)
deriving DecidableEq, Repr

/-- One iteration of the extraction loop (lines 79-86): `point["geo"]`,
`geo[0]`, `geo[1]` succeed exactly when `geo` is present with at least two
elements; `name` is read with `.get` and may be null. -/
def parsePoint (p : RawPoint) : Option AnitabiPoint :=
  match p.geo with
  | some (a :: b :: _) => some { name := p.name, geo := { lat := a, lng := b } }
  | _ => none

/-- The extraction loop: `results` accumulates parsed points; the first
element whose extraction raises aborts the loop (the exception is caught
outside it), so the points already accumulated are kept. -/
def parseLoop : List RawPoint → List AnitabiPoint
  | [] => []
  | p :: rest =>
    match parsePoint p with
    | some ap => ap :: parseLoop rest
    | none => []

/-- Function `fetch_and_parse_points`: on any request/HTTP/parse error the generic
handlers log and the accumulated `results` (empty, since the loop has not
run) are returned; on success the `points` array (default `[]`) is
traversed by the extraction loop. -/
def fetch_and_parse_points (resp : Except Unit CatalogResp) : List AnitabiPoint :=
  match resp with
  | .error _ => []
  | .ok data => parseLoop (data.points.getD [])

/-! ### Panorama Resolver (`get_google_pano`) -/

/-- The optional `location` object of a street-view metadata response;
`lat`/`lng` are read with `.get` and fall back to the requested
coordinates when absent. -/
structure LocationObj where
  lat : Option Rat
  lng : Option Rat
deriving DecidableEq, Repr

/-- The parsed JSON body of a street-view metadata response.  `status` is
read with `.get` (may be absent); `pano_id` and `location` are read with
`[...]`, raising `KeyError` when absent. -/
structure MetaResp where
  status : Option String
  pano_id : Option String
  location : Option LocationObj
deriving DecidableEq, Repr

/-- Function `get_google_pano` (lines 99-133): an `Except.error` request outcome or
any missing required key lands in the generic `except` and yields `None`;
a non-`"OK"` status yields `None` with a warning; otherwise a
`GooglePanoPoint` is built from `pano_id` and the corrected location,
falling back to the requested coordinates field-by-field. -/
def get_google_pano (p : Point) (respE : Except Unit MetaResp) : Option GooglePanoPoint :=
  match respE with
  | .error _ => none
  | .ok data =>
    if data.status = some "OK" then
      match data.pano_id, data.location with
      | some pid, some loc =>
          some { geo := { lat := loc.lat.getD p.lat, lng := loc.lng.getD p.lng }
               , pano_id := pid }
      | _, _ => none
    else
      none

/-! ### Batch Orchestrator (`process_points_with_pano`) -/

/-- The join loop (lines 149-154): `zip(points_list, pano_results)` pairs
by position and truncates to the shorter list; a present resolution
produces a `Record`, an absent one is skipped with a warning. -/
def process_points_with_pano : List AnitabiPoint → List (Option GooglePanoPoint) → List Record
  | [], _ => []
  | _ :: _, [] => []
  | pt :: pts, r :: rs =>
    match r with
    | some g => { anitabi_point := pt, google_pano_point := g } :: process_points_with_pano pts rs
    | none => process_points_with_pano pts rs

/-- The fan-out of `main`/`process_points_with_pano`: one resolver call per
catalog point, in submission order, each call receiving that point's
coordinates and its own network outcome; `asyncio.gather` preserves
submission order, so result `i` belongs to point `i`. -/
def resolveAll (pts : List AnitabiPoint) (resps : List (Except Unit MetaResp)) : List Record :=
  process_points_with_pano pts ((pts.zip resps).map (fun x => get_google_pano x.1.geo x.2))

/-! ### Deduplicator (`list(set(records))`, lines 178-181)

CPython set construction inserts elements in iteration order; inserting an
element equal (under `__eq__`/`__hash__`) to one already present leaves the
set unchanged, so the first-inserted representative is retained. -/

/-- One CPython `set.add`: a no-op when an equal element is present, else
the element is added. -/
def pySetAdd (s : List Record) (r : Record) : List Record :=
  if s.any (fun x => x.pyEq r) then s else s ++ [r]

/-- The set `set(records)` built by inserting the list's elements in order. -/
def dedupe (rs : List Record) : List Record :=
  rs.foldl pySetAdd []

/-! ### Exporters (`main`, lines 184-203) -/

/-- One CSV data row, fields exactly as assembled at lines 191-199. -/
structure CsvRow where
  name : Option String
  anitabi_lat : Rat
  anitabi_lng : Rat
  pano_id : String
  pano_lat : Rat
  pano_lng : Rat
  google_maps_url : String
deriving DecidableEq, Repr

/-- The row written for one record (lines 191-199). -/
def csvRowOf (r : Record) : CsvRow :=
  { name := r.anitabi_point.name
  , anitabi_lat := r.anitabi_point.geo.lat
  , anitabi_lng := r.anitabi_point.geo.lng
  , pano_id := r.google_pano_point.pano_id
  , pano_lat := r.google_pano_point.geo.lat
  , pano_lng := r.google_pano_point.geo.lng
  , google_maps_url := r.google_pano_point.url }

/-- The single output loop (lines 190-200): for each record, in list
order, one CSV row is written and the record's URL is appended to
`tuxun_urls`. -/
def exportLoop : List Record → List CsvRow × List String
  | [] => ([], [])
  | r :: rs =>
    let p := exportLoop rs
    (csvRowOf r :: p.1, r.google_pano_point.url :: p.2)

/-- Python `str.join` semantics: the separator goes between consecutive
elements, nothing before the first element or after the last, and the
empty list joins to the empty string. -/
def pyJoin (sep : String) : List String → String
  | [] => ""
  | [s] => s
  | s :: s2 :: rest => s ++ sep ++ pyJoin sep (s2 :: rest)

/-- The content written to the URL-list file (line 203):
`"\n".join(tuxun_urls)`. -/
def tuxunContent (rs : List Record) : String :=
  pyJoin "\n" (exportLoop rs).2

/-- A concrete record fixture used to instantiate universally quantified
theorems at sample inputs. -/
def sampleRecord (name pid : String) (a b : Rat) : Record :=
  { anitabi_point := { name := some name, geo := { lat := a, lng := b } }
  , google_pano_point := { geo := { lat := a, lng := b }, pano_id := pid } }

/-! ### Helper lemmas -/

theorem process_eq_zip_filterMap :
    ∀ (pts : List AnitabiPoint) (res : List (Option GooglePanoPoint)),
      process_points_with_pano pts res
        = (pts.zip res).filterMap (fun x => Option.map (fun g => Record.mk x.1 g) x.2)
  | [], _ => rfl
  | _ :: _, [] => rfl
  | pt :: pts, some g :: res => by
      simp [process_points_with_pano, List.zip_cons_cons, List.filterMap_cons,
        process_eq_zip_filterMap pts res]
  | pt :: pts, none :: res => by
      simp [process_points_with_pano, List.zip_cons_cons, List.filterMap_cons,
        process_eq_zip_filterMap pts res]

theorem process_map_sublist :
    ∀ (pts : List AnitabiPoint) (res : List (Option GooglePanoPoint)),
      List.Sublist ((process_points_with_pano pts res).map Record.anitabi_point) pts
  | [], _ => by simp [process_points_with_pano]
  | _ :: _, [] => by simp [process_points_with_pano]
  | pt :: pts, some g :: res => by
      simpa [process_points_with_pano] using (process_map_sublist pts res).cons₂ pt
  | pt :: pts, none :: res => by
      simpa [process_points_with_pano] using (process_map_sublist pts res).cons pt

theorem parseLoop_all_some (raws : List RawPoint)
    (h : ∀ p ∈ raws, (parsePoint p).isSome) :
    (parseLoop raws).length = raws.length
      ∧ ∀ i : ℕ, (parseLoop raws).get? i = (raws.get? i).bind parsePoint := by
  induction raws with
  | nil => exact ⟨rfl, fun i => by simp [parseLoop]⟩
  | cons p rest ih =>
    obtain ⟨ap, hap⟩ := Option.isSome_iff_exists.mp (h p (by simp))
    obtain ⟨hlen, hget⟩ := ih (fun q hq => h q (by simp [hq]))
    refine ⟨?_, ?_⟩
    · simp [parseLoop, hap, hlen]
    · intro i
      cases i with
      | zero => simp [parseLoop, hap]
      | succ j => simpa [parseLoop, hap] using hget j

theorem filterMap_parsePoint_length (l : List RawPoint)
    (h : ∀ p ∈ l, (parsePoint p).isSome) :
    (l.filterMap parsePoint).length = l.length := by
  induction l with
  | nil => rfl
  | cons p gs ih =>
    obtain ⟨ap, hap⟩ := Option.isSome_iff_exists.mp (h p (by simp))
    simp [List.filterMap_cons, hap, ih (fun q hq => h q (by simp [hq]))]

theorem parseLoop_stops (good : List RawPoint) (bad : RawPoint) (rest : List RawPoint)
    (hg : ∀ p ∈ good, (parsePoint p).isSome) (hb : parsePoint bad = none) :
    parseLoop (good ++ bad :: rest) = good.filterMap parsePoint := by
  induction good with
  | nil => simp [parseLoop, hb]
  | cons p gs ih =>
    obtain ⟨ap, hap⟩ := Option.isSome_iff_exists.mp (hg p (by simp))
    simp [parseLoop, hap, List.filterMap_cons,
      ih (fun q hq => hg q (by simp [hq]))]

/-- The identity key Python's `__eq__`/`__hash__` delegate to. -/
def recordKey (r : Record) : String :=
  r.google_pano_point.pano_id

theorem pyEq_iff_key (a b : Record) : a.pyEq b = true ↔ recordKey a = recordKey b := by
  simp [Record.pyEq, GooglePanoPoint.pyEq, recordKey]

theorem foldl_pySetAdd_find (pid : String) :
    ∀ (rs acc : List Record),
      (rs.foldl pySetAdd acc).find? (fun r => recordKey r == pid)
        = (acc.find? (fun r => recordKey r == pid)).or
            (rs.find? (fun r => recordKey r == pid))
  | [], acc => by
    cases h : acc.find? (fun r => recordKey r == pid) <;> simp [h]
  | r :: rs, acc => by
    rw [List.foldl_cons, foldl_pySetAdd_find pid rs (pySetAdd acc r)]
    by_cases hmem : acc.any (fun x => x.pyEq r) = true
    · rw [pySetAdd, if_pos hmem]
      by_cases hq : recordKey r = pid
      · obtain ⟨x, hx, hxr⟩ := List.any_eq_true.mp hmem
        have hxq : recordKey x = pid := ((pyEq_iff_key x r).mp hxr).trans hq
        have hsome : (acc.find? (fun r => recordKey r == pid)).isSome :=
          List.find?_isSome.mpr ⟨x, hx, by simp [hxq]⟩
        obtain ⟨y, hy⟩ := Option.isSome_iff_exists.mp hsome
        simp [hy]
      · rw [List.find?_cons_of_neg _ (by simp [hq])]
    · rw [pySetAdd, if_neg hmem, List.find?_append, Option.or_assoc]
      have htail : (List.find? (fun r => recordKey r == pid) [r]).or
            (rs.find? (fun r => recordKey r == pid))
          = (r :: rs).find? (fun r => recordKey r == pid) := by
        by_cases hq : recordKey r = pid
        · simp [hq]
        · simp [hq]
      rw [htail]

theorem dedupe_find (rs : List Record) (pid : String) :
    (dedupe rs).find? (fun r => recordKey r == pid)
      = rs.find? (fun r => recordKey r == pid) := by
  simpa [dedupe] using foldl_pySetAdd_find pid rs []

theorem foldl_pySetAdd_keys_nodup :
    ∀ (rs acc : List Record), (acc.map recordKey).Nodup →
      ((rs.foldl pySetAdd acc).map recordKey).Nodup
  | [], acc, h => h
  | r :: rs, acc, h => by
    rw [List.foldl_cons]
    refine foldl_pySetAdd_keys_nodup rs (pySetAdd acc r) ?_
    by_cases hmem : acc.any (fun x => x.pyEq r) = true
    · rwa [pySetAdd, if_pos hmem]
    · rw [pySetAdd, if_neg hmem]
      have hnot : ∀ x ∈ acc, recordKey x ≠ recordKey r := by
        intro x hx hxr
        exact hmem (List.any_eq_true.mpr ⟨x, hx, (pyEq_iff_key x r).mpr hxr⟩)
      simp only [List.map_append, List.map_cons, List.map_nil, List.nodup_append]
      exact ⟨h, List.nodup_singleton _, by
        intro k hk hk1
        obtain ⟨x, hx, hxk⟩ := List.mem_map.mp hk
        simp only [List.mem_singleton] at hk1
        exact hnot x hx (hxk.trans hk1)⟩

theorem dedupe_keys_nodup (rs : List Record) : ((dedupe rs).map recordKey).Nodup :=
  foldl_pySetAdd_keys_nodup rs [] List.nodup_nil

theorem foldl_pySetAdd_of_keys_nodup :
    ∀ (rs acc : List Record),
      (∀ x ∈ acc, ∀ y ∈ rs, recordKey x ≠ recordKey y) →
      ((rs.map recordKey).Nodup) →
      rs.foldl pySetAdd acc = acc ++ rs
  | [], acc, _, _ => by simp
  | r :: rs, acc, hdis, hnd => by
    have hmem : acc.any (fun x => x.pyEq r) = false := by
      rw [List.any_eq_false]
      intro x hx hxr
      exact hdis x hx r (by simp) ((pyEq_iff_key x r).mp (by simpa using hxr))
    rw [List.foldl_cons, pySetAdd, if_neg (by simp [hmem])]
    rw [List.map_cons, List.nodup_cons] at hnd
    rw [foldl_pySetAdd_of_keys_nodup rs (acc ++ [r]) ?_ hnd.2]
    · simp
    · intro x hx y hy
      rcases List.mem_append.mp hx with hx | hx
      · exact hdis x hx y (by simp [hy])
      · simp only [List.mem_singleton] at hx
        subst hx
        intro hxy
        exact hnd.1 (hxy ▸ List.mem_map_of_mem recordKey hy)

theorem dedupe_of_keys_nodup (rs : List Record) (h : (rs.map recordKey).Nodup) :
    dedupe rs = rs := by
  simpa [dedupe] using foldl_pySetAdd_of_keys_nodup rs [] (by simp) h

theorem dedupe_idem (rs : List Record) : dedupe (dedupe rs) = dedupe rs :=
  dedupe_of_keys_nodup (dedupe rs) (dedupe_keys_nodup rs)

theorem keys_nodup_unique (l : List Record) (hnd : (l.map recordKey).Nodup)
    (x : Record) (hx : x ∈ l) (r : Record) (hr : r ∈ l)
    (hk : recordKey x = recordKey r) : x = r := by
  by_contra hne
  have hpw : l.Pairwise (fun a b => recordKey a ≠ recordKey b) :=
    List.pairwise_map.mp hnd
  have hsymm : Symmetric (fun a b : Record => recordKey a ≠ recordKey b) := by
    intro a b hab heq
    exact hab heq.symm
  exact hpw.forall hsymm hx hr hne hk

theorem filter_key_length_le_one (l : List Record) (hnd : (l.map recordKey).Nodup)
    (pid : String) : (l.filter (fun r => recordKey r == pid)).length ≤ 1 := by
  induction l with
  | nil => simp
  | cons r rest ih =>
    rw [List.map_cons, List.nodup_cons] at hnd
    by_cases hq : recordKey r = pid
    · have hrest : rest.filter (fun r => recordKey r == pid) = [] := by
        rw [List.filter_eq_nil_iff]
        intro y hy hyq
        have hky : recordKey y = pid := by simpa using hyq
        have hmemk : recordKey r ∈ rest.map recordKey := by
          rw [hq, ← hky]
          exact List.mem_map_of_mem recordKey hy
        exact hnd.1 hmemk
      simp [List.filter_cons, hq, hrest]
    · simpa [List.filter_cons, hq] using ih hnd.2

theorem process_mem_index (r : Record) :
    ∀ (pts : List AnitabiPoint) (res : List (Option GooglePanoPoint)),
      r ∈ process_points_with_pano pts res →
      ∃ i : ℕ, pts.get? i = some r.anitabi_point
        ∧ res.get? i = some (some r.google_pano_point)
  | [], res, h => by simp [process_points_with_pano] at h
  | _ :: _, [], h => by simp [process_points_with_pano] at h
  | pt :: pts, some g :: res, h => by
    have h' : r ∈ ({ anitabi_point := pt, google_pano_point := g } : Record)
        :: process_points_with_pano pts res := by
      simpa [process_points_with_pano] using h
    rcases List.mem_cons.mp h' with h1 | h1
    · subst h1
      exact ⟨0, rfl, rfl⟩
    · obtain ⟨i, h2, h3⟩ := process_mem_index r pts res h1
      exact ⟨i + 1, h2, h3⟩
  | pt :: pts, none :: res, h => by
    have h' : r ∈ process_points_with_pano pts res := by
      simpa [process_points_with_pano] using h
    obtain ⟨i, h2, h3⟩ := process_mem_index r pts res h'
    exact ⟨i + 1, h2, h3⟩

theorem get_google_pano_some (p : Point) (e : Except Unit MetaResp)
    (g : GooglePanoPoint) (h : get_google_pano p e = some g) :
    ∃ data : MetaResp, e = Except.ok data ∧ data.status = some "OK"
      ∧ data.pano_id = some g.pano_id
      ∧ ∃ loc : LocationObj, data.location = some loc
        ∧ g.geo = ⟨loc.lat.getD p.lat, loc.lng.getD p.lng⟩ := by
  cases e with
  | error u => simp [get_google_pano] at h
  | ok data =>
    by_cases hs : data.status = some "OK"
    · cases hpid : data.pano_id with
      | none => simp [get_google_pano, hs, hpid] at h
      | some pid =>
        cases hloc : data.location with
        | none => simp [get_google_pano, hs, hpid, hloc] at h
        | some loc =>
          simp only [get_google_pano, hs, if_pos, hpid, hloc,
            Option.some.injEq] at h
          subst h
          exact ⟨data, rfl, hs, by simp [hpid], loc, hloc, rfl⟩
    · simp [get_google_pano, hs] at h

/-- C5 counterexample: a status-`"OK"` response whose `pano_id` is the
empty string makes the pipeline construct a Record whose panorama
identifier is empty, contradicting the claimed non-emptiness. -/
theorem pipeline_empty_pano_id_counterexample :
    resolveAll [⟨some "A", ⟨1, 2⟩⟩]
        [Except.ok ⟨some "OK", some "", some ⟨none, none⟩⟩]
      = [⟨⟨some "A", ⟨1, 2⟩⟩, ⟨⟨1, 2⟩, ""⟩⟩]
    ∧ ∃ r ∈ resolveAll [⟨some "A", ⟨1, 2⟩⟩]
          [Except.ok ⟨some "OK", some "", some ⟨none, none⟩⟩],
        r.google_pano_point.pano_id = "" := by
  constructor
  · decide
  · exact ⟨⟨⟨some "A", ⟨1, 2⟩⟩, ⟨⟨1, 2⟩, ""⟩⟩, by decide, rfl⟩

/-- C5 amended: every Record the pipeline constructs carries a panorama
point that a successful (status-`"OK"`) resolver call on that Record's own
catalog point returned, with the identifier taken from the response's
`pano_id`; no Record arises from an absent resolution.  (Non-emptiness of
the identifier is not enforced: the code accepts an empty `pano_id`.) -/
theorem pipeline_records_come_from_ok_responses (pts : List AnitabiPoint)
    (resps : List (Except Unit MetaResp)) (r : Record)
    (h : r ∈ resolveAll pts resps) :
    ∃ (i : ℕ) (data : MetaResp),
      pts.get? i = some r.anitabi_point
      ∧ resps.get? i = some (Except.ok data)
      ∧ data.status = some "OK"
      ∧ data.pano_id = some r.google_pano_point.pano_id
      ∧ get_google_pano r.anitabi_point.geo (Except.ok data)
          = some r.google_pano_point := by
  have h' : r ∈ process_points_with_pano pts
      ((pts.zip resps).map fun x => get_google_pano x.1.geo x.2) := h
  obtain ⟨i, hpt, hres⟩ := process_mem_index r pts
    ((pts.zip resps).map fun x => get_google_pano x.1.geo x.2) h'
  rw [List.get?_map] at hres
  cases hz : (pts.zip resps).get? i with
  | none => rw [hz] at hres; simp at hres
  | some pr =>
    rw [hz] at hres
    simp only [Option.map_some', Option.some.injEq] at hres
    have hz2 := List.getElem?_zip_eq_some.mp (by
      rw [← List.get?_eq_getElem?]
      exact hz)
    have hp1 : pr.1 = r.anitabi_point := by
      have := hz2.1
      rw [← List.get?_eq_getElem?] at this
      exact Option.some.inj (this.symm.trans hpt)
    rw [hp1] at hres
    obtain ⟨data, hdata, hok, hpid, -⟩ :=
      get_google_pano_some r.anitabi_point.geo pr.2 r.google_pano_point hres
    refine ⟨i, data, hpt, ?_, hok, hpid, hdata ▸ hres⟩
    have := hz2.2
    rw [← List.get?_eq_getElem?] at this
    rw [this, hdata]

/-- Witness for the amended C5 on a one-point, one-response pipeline. -/
theorem pipeline_records_come_from_ok_responses_witness :
    ∃ (i : ℕ) (data : MetaResp),
      ([⟨some "A", ⟨1, 2⟩⟩] : List AnitabiPoint).get? i
          = some (⟨⟨some "A", ⟨1, 2⟩⟩, ⟨⟨3, 4⟩, "X"⟩⟩ : Record).anitabi_point
      ∧ ([Except.ok ⟨some "OK", some "X", some ⟨some 3, some 4⟩⟩]
          : List (Except Unit MetaResp)).get? i = some (Except.ok data)
      ∧ data.status = some "OK"
      ∧ data.pano_id
          = some (⟨⟨some "A", ⟨1, 2⟩⟩, ⟨⟨3, 4⟩, "X"⟩⟩ : Record).google_pano_point.pano_id
      ∧ get_google_pano (⟨⟨some "A", ⟨1, 2⟩⟩, ⟨⟨3, 4⟩, "X"⟩⟩ : Record).anitabi_point.geo
          (Except.ok data)
          = some (⟨⟨some "A", ⟨1, 2⟩⟩, ⟨⟨3, 4⟩, "X"⟩⟩ : Record).google_pano_point :=
  pipeline_records_come_from_ok_responses
    [⟨some "A", ⟨1, 2⟩⟩]
    [Except.ok ⟨some "OK", some "X", some ⟨some 3, some 4⟩⟩]
    ⟨⟨some "A", ⟨1, 2⟩⟩, ⟨⟨3, 4⟩, "X"⟩⟩
    (by decide)

/-- C2: deduplication keeps exactly one Record per `panoramaId` occurring
in the input, keeps the length of a list whose `panoramaId`s are all
distinct, and is idempotent. -/
theorem dedupe_one_per_pano_and_idempotent (rs : List Record) :
    (∀ pid : String, (∃ r ∈ rs, recordKey r = pid) →
        ((dedupe rs).filter (fun r => recordKey r == pid)).length = 1)
      ∧ ((rs.map recordKey).Nodup → (dedupe rs).length = rs.length)
      ∧ dedupe (dedupe rs) = dedupe rs := by
  refine ⟨?_, ?_, dedupe_idem rs⟩
  · rintro pid ⟨r, hr, hk⟩
    have hle := filter_key_length_le_one (dedupe rs) (dedupe_keys_nodup rs) pid
    have hsome : (rs.find? (fun r => recordKey r == pid)).isSome :=
      List.find?_isSome.mpr ⟨r, hr, by simp [hk]⟩
    obtain ⟨x, hx⟩ := Option.isSome_iff_exists.mp hsome
    have hfind : (dedupe rs).find? (fun r => recordKey r == pid) = some x :=
      (dedupe_find rs pid).trans hx
    have hq := List.find?_some hfind
    have hxfil : x ∈ (dedupe rs).filter (fun r => recordKey r == pid) :=
      List.mem_filter.mpr ⟨List.mem_of_find?_eq_some hfind, hq⟩
    have hge : 0 < ((dedupe rs).filter (fun r => recordKey r == pid)).length :=
      List.length_pos.mpr (List.ne_nil_of_mem hxfil)
    omega
  · intro h
    rw [dedupe_of_keys_nodup rs h]

/-- Witness for C2: a duplicated `panoramaId` collapses to one entry, an
all-distinct list keeps its length, and deduplication is a no-op the
second time. -/
theorem dedupe_one_per_pano_and_idempotent_witness :
    ((dedupe [sampleRecord "a" "P" 1 2, sampleRecord "b" "P" 3 4]).filter
        (fun r => recordKey r == "P")).length = 1
      ∧ (dedupe [sampleRecord "a" "P" 1 2, sampleRecord "c" "Q" 5 6]).length
          = ([sampleRecord "a" "P" 1 2, sampleRecord "c" "Q" 5 6] : List Record).length
      ∧ dedupe (dedupe [sampleRecord "a" "P" 1 2, sampleRecord "b" "P" 3 4])
          = dedupe [sampleRecord "a" "P" 1 2, sampleRecord "b" "P" 3 4] :=
  ⟨(dedupe_one_per_pano_and_idempotent [sampleRecord "a" "P" 1 2, sampleRecord "b" "P" 3 4]).1
      "P" ⟨sampleRecord "a" "P" 1 2, by simp, rfl⟩,
   (dedupe_one_per_pano_and_idempotent [sampleRecord "a" "P" 1 2, sampleRecord "c" "Q" 5 6]).2.1
      (by decide),
   (dedupe_one_per_pano_and_idempotent [sampleRecord "a" "P" 1 2, sampleRecord "b" "P" 3 4]).2.2⟩

/-- C8: Record equality and hashing are determined solely by the contained
panorama identifier, and under set conversion the retained representative
for a `panoramaId` is the earliest such Record in list order (the first
one inserted). -/
theorem record_identity_and_first_inserted_retained :
    (∀ a b : Record, a.pyEq b = true
        ↔ a.google_pano_point.pano_id = b.google_pano_point.pano_id)
      ∧ (∀ a b : Record,
          a.google_pano_point.pano_id = b.google_pano_point.pano_id →
            a.pyHash = b.pyHash)
      ∧ (∀ (rs : List Record) (r : Record), r ∈ dedupe rs →
          rs.find? (fun x => recordKey x == recordKey r) = some r) := by
  refine ⟨pyEq_iff_key, ?_, ?_⟩
  · intro a b h
    simp [Record.pyHash, GooglePanoPoint.pyHash, h]
  · intro rs r hr
    have hsome : ((dedupe rs).find? (fun x => recordKey x == recordKey r)).isSome :=
      List.find?_isSome.mpr ⟨r, hr, by simp⟩
    obtain ⟨x, hx⟩ := Option.isSome_iff_exists.mp hsome
    have hxr : x = r :=
      keys_nodup_unique (dedupe rs) (dedupe_keys_nodup rs)
        x (List.mem_of_find?_eq_some hx) r hr
        (by simpa using List.find?_some hx)
    rw [← dedupe_find rs (recordKey r), hx, hxr]

/-- Witness for C8: two Records differing only in catalog data hash alike,
and the first of the two is the representative found for their shared
identifier. -/
theorem record_identity_and_first_inserted_retained_witness :
    (sampleRecord "a" "P" 1 2).pyHash = (sampleRecord "b" "P" 3 4).pyHash
      ∧ [sampleRecord "a" "P" 1 2, sampleRecord "b" "P" 3 4].find?
          (fun x => recordKey x == recordKey (sampleRecord "a" "P" 1 2))
          = some (sampleRecord "a" "P" 1 2) :=
  ⟨record_identity_and_first_inserted_retained.2.1
      (sampleRecord "a" "P" 1 2) (sampleRecord "b" "P" 3 4) rfl,
   record_identity_and_first_inserted_retained.2.2
      [sampleRecord "a" "P" 1 2, sampleRecord "b" "P" 3 4]
      (sampleRecord "a" "P" 1 2) (by decide)⟩

/-- C1: the Batch Orchestrator pairs each catalog point with the
resolution result at the same positional index (zip), drops every point
whose result is absent, and returns the remaining Records in the same
relative order as the input point list (the projection onto catalog points
is a sublist of the input). -/
theorem batch_orchestrator_zip_drop_order
    (pts : List AnitabiPoint) (res : List (Option GooglePanoPoint)) :
    process_points_with_pano pts res
        = (pts.zip res).filterMap (fun x => Option.map (fun g => Record.mk x.1 g) x.2)
      ∧ List.Sublist ((process_points_with_pano pts res).map Record.anitabi_point) pts :=
  ⟨process_eq_zip_filterMap pts res, process_map_sublist pts res⟩

/-- C6: for a catalog response whose `points` array holds only well-formed
entries (a name and a 2-element geo array), the Catalog Client returns
exactly as many points as the array holds, and the point at every index is
the parse of the raw entry at that index. -/
theorem catalog_client_well_formed_count (raws : List RawPoint)
    (h : ∀ p ∈ raws, p.name.isSome ∧ ∃ a b : Rat, p.geo = some [a, b]) :
    (fetch_and_parse_points (Except.ok ⟨some raws⟩)).length = raws.length
      ∧ ∀ i : ℕ, (fetch_and_parse_points (Except.ok ⟨some raws⟩)).get? i
          = (raws.get? i).bind parsePoint := by
  have hs : ∀ p ∈ raws, (parsePoint p).isSome := by
    intro p hp
    obtain ⟨-, a, b, hg⟩ := h p hp
    simp [parsePoint, hg]
  simpa [fetch_and_parse_points] using parseLoop_all_some raws hs

/-- Witness for C6 at a one-element well-formed response. -/
theorem catalog_client_well_formed_count_witness :
    (fetch_and_parse_points (Except.ok ⟨some [⟨some "A", some [1, 2]⟩]⟩)).length
        = ([⟨some "A", some [(1 : Rat), 2]⟩] : List RawPoint).length
      ∧ ∀ i : ℕ, (fetch_and_parse_points (Except.ok ⟨some [⟨some "A", some [1, 2]⟩]⟩)).get? i
          = (([⟨some "A", some [(1 : Rat), 2]⟩] : List RawPoint).get? i).bind parsePoint :=
  catalog_client_well_formed_count [⟨some "A", some [1, 2]⟩]
    (by rintro p hp; simp only [List.mem_singleton] at hp; subst hp
        exact ⟨rfl, 1, 2, rfl⟩)

/-- C7: for every metadata response whose status is anything other than
`"OK"`, the Panorama Resolver returns absent (the generic handler means no
exception ever reaches the caller; in this embedding the function is total
and yields `none`). -/
theorem resolver_non_ok_returns_none (p : Point) (data : MetaResp)
    (h : data.status ≠ some "OK") :
    get_google_pano p (Except.ok data) = none := by
  simp [get_google_pano, h]

/-- Witness for C7 at a `ZERO_RESULTS` response. -/
theorem resolver_non_ok_returns_none_witness :
    get_google_pano ⟨0, 0⟩ (Except.ok ⟨some "ZERO_RESULTS", none, none⟩) = none :=
  resolver_non_ok_returns_none ⟨0, 0⟩ ⟨some "ZERO_RESULTS", none, none⟩ (by simp)

/-- C4 counterexample: a status-`"OK"` response carrying a `pano_id` but no
`location` object makes the resolver return absent (the `KeyError` on
`data["location"]` is swallowed), not a PanoramaPoint falling back to the
requested coordinates as the claim states. -/
theorem resolver_ok_missing_location_counterexample :
    get_google_pano ⟨1, 2⟩ (Except.ok ⟨some "OK", some "X", none⟩) = none
      ∧ get_google_pano ⟨1, 2⟩ (Except.ok ⟨some "OK", some "X", none⟩)
          ≠ some ⟨⟨1, 2⟩, "X"⟩ := by
  constructor <;> simp [get_google_pano]

/-- C4 amended: for every response with status `"OK"` that carries a
`pano_id` and a `location` object, the resolver returns a PanoramaPoint
with that `pano_id`, taking the location object's lat/lng when present
there and the requested coordinate otherwise, field by field. -/
theorem resolver_ok_builds_pano (p : Point) (data : MetaResp)
    (pid : String) (loc : LocationObj)
    (hs : data.status = some "OK") (hp : data.pano_id = some pid)
    (hl : data.location = some loc) :
    get_google_pano p (Except.ok data)
      = some ⟨⟨loc.lat.getD p.lat, loc.lng.getD p.lng⟩, pid⟩ := by
  simp [get_google_pano, hs, hp, hl]

/-- Witness for the amended C4: corrected latitude present, longitude
falls back to the requested one. -/
theorem resolver_ok_builds_pano_witness :
    get_google_pano ⟨1, 2⟩ (Except.ok ⟨some "OK", some "X", some ⟨some 3, none⟩⟩)
      = some ⟨⟨3, 2⟩, "X"⟩ :=
  resolver_ok_builds_pano ⟨1, 2⟩ ⟨some "OK", some "X", some ⟨some 3, none⟩⟩
    "X" ⟨some 3, none⟩ rfl rfl rfl

/-- C3 counterexample: a response with one well-formed point followed by a
point lacking `geo` yields the one-element parsed prefix, not the empty
list the claim demands. -/
theorem catalog_malformed_not_empty_counterexample :
    fetch_and_parse_points
        (Except.ok ⟨some [⟨some "A", some [1, 2]⟩, ⟨some "B", none⟩]⟩)
      = [⟨some "A", ⟨1, 2⟩⟩]
      ∧ fetch_and_parse_points
          (Except.ok ⟨some [⟨some "A", some [1, 2]⟩, ⟨some "B", none⟩]⟩) ≠ [] := by
  constructor <;> simp [fetch_and_parse_points, parseLoop, parsePoint]

/-- C3 amended: when a malformed element (e.g. lacking `geo`) follows a
run of well-formed ones, the fetch returns exactly the points parsed
before the malformed element — the well-formed prefix — so the result is
empty only when the malformed element comes first. -/
theorem catalog_malformed_returns_parsed_prefix_points
    (good : List RawPoint) (bad : RawPoint) (rest : List RawPoint)
    (hg : ∀ p ∈ good, (parsePoint p).isSome) (hb : parsePoint bad = none) :
    fetch_and_parse_points (Except.ok ⟨some (good ++ bad :: rest)⟩)
        = good.filterMap parsePoint
      ∧ (fetch_and_parse_points (Except.ok ⟨some (good ++ bad :: rest)⟩)).length
          = good.length := by
  have h1 : fetch_and_parse_points (Except.ok ⟨some (good ++ bad :: rest)⟩)
      = good.filterMap parsePoint := by
    simpa [fetch_and_parse_points] using parseLoop_stops good bad rest hg hb
  refine ⟨h1, ?_⟩
  rw [h1]
  exact filterMap_parsePoint_length good hg

theorem exportLoop_eq (rs : List Record) :
    exportLoop rs = (rs.map csvRowOf, rs.map (fun r => r.google_pano_point.url)) := by
  induction rs with
  | nil => rfl
  | cons r rest ih => simp [exportLoop, ih]

theorem pyJoin_append_one (sep x : String) :
    ∀ l : List String,
      pyJoin sep (l ++ [x]) = pyJoin sep l ++ (if l = [] then "" else sep) ++ x
  | [] => by simp [pyJoin]
  | [s] => by simp [pyJoin]
  | s :: s2 :: t => by
    have ih := pyJoin_append_one sep x (s2 :: t)
    have e1 : pyJoin sep ((s :: s2 :: t) ++ [x])
        = s ++ sep ++ pyJoin sep ((s2 :: t) ++ [x]) := rfl
    have e2 : pyJoin sep (s :: s2 :: t) = s ++ sep ++ pyJoin sep (s2 :: t) := rfl
    rw [e1, ih, e2, if_neg (List.cons_ne_nil s2 t), if_neg (List.cons_ne_nil s (s2 :: t))]
    simp [String.append_assoc]

/-- C9: the URL-list export writes one derived viewer URL per Record in
list order; the URLs are joined by single newlines with nothing appended
after the last one, and an empty Record list yields an empty file. -/
theorem url_list_one_line_per_record :
    tuxunContent [] = ""
      ∧ (∀ rs : List Record,
          (exportLoop rs).2 = rs.map (fun r => r.google_pano_point.url))
      ∧ (∀ (rs : List Record) (r : Record),
          tuxunContent (rs ++ [r])
            = tuxunContent rs ++ (if rs = [] then "" else "\n")
                ++ r.google_pano_point.url) := by
  refine ⟨rfl, fun rs => congrArg Prod.snd (exportLoop_eq rs), ?_⟩
  intro rs r
  have h1 : (exportLoop (rs ++ [r])).2
      = (exportLoop rs).2 ++ [r.google_pano_point.url] := by
    rw [exportLoop_eq, exportLoop_eq]
    simp
  cases rs with
  | nil => simp [tuxunContent, exportLoop, pyJoin]
  | cons a as =>
    have hne : (exportLoop (a :: as)).2 ≠ [] := by
      rw [exportLoop_eq]
      simp
    simp only [tuxunContent]
    rw [h1, pyJoin_append_one, if_neg hne, if_neg (List.cons_ne_nil a as)]

/-- C10: the two exports are generated in the same loop and agree: the URL
list has exactly as many entries as the CSV has data rows, and the i-th
URL equals the `google_maps_url` field of the i-th CSV row. -/
theorem csv_and_url_exports_consistent (rs : List Record) :
    (exportLoop rs).2.length = (exportLoop rs).1.length
      ∧ ∀ i : ℕ, (exportLoop rs).2.get? i
          = ((exportLoop rs).1.get? i).map CsvRow.google_maps_url := by
  rw [exportLoop_eq]
  refine ⟨by simp, ?_⟩
  intro i
  rw [List.get?_map, List.get?_map]
  cases rs.get? i <;> simp [csvRowOf]

/-- Witness for the amended C3: one well-formed point before the
malformed one survives. -/
theorem catalog_malformed_returns_parsed_prefix_points_witness :
    fetch_and_parse_points
        (Except.ok ⟨some [⟨some "C", some [3, 4]⟩, ⟨none, some []⟩, ⟨some "D", some [5, 6]⟩]⟩)
        = ([⟨some "C", some [(3 : Rat), 4]⟩] : List RawPoint).filterMap parsePoint
      ∧ (fetch_and_parse_points
          (Except.ok ⟨some [⟨some "C", some [3, 4]⟩, ⟨none, some []⟩, ⟨some "D", some [5, 6]⟩]⟩)).length
          = ([⟨some "C", some [(3 : Rat), 4]⟩] : List RawPoint).length :=
  catalog_malformed_returns_parsed_prefix_points
    [⟨some "C", some [3, 4]⟩] ⟨none, some []⟩ [⟨some "D", some [5, 6]⟩]
    (by rintro p hp; simp only [List.mem_singleton] at hp; subst hp; rfl)
    rfl

end AnitabiTuxun
